import Mathlib

/-!
Shallow embedding of `src/sw_timer.c` (software timer scheduler multiplexing
logical timers onto one hardware counter) and verification of its
specification claims.

Modelling conventions:
* `uint32_t` values are `Nat` with explicit wrap-around (`% 2^32`) applied by
  `add32` / `sub32` at each arithmetic step, exactly where C arithmetic wraps.
* Timer records live in an arena `timers : Nat → TimerRecord`; C pointers become
  `Option Nat` (a `none` is a NULL pointer).  Dereferencing a NULL pointer and
  calling a NULL function pointer are modelled as explicit faults.
* The two injected adapter operations are modelled by the flags `armSet` /
  `cntSet` (whether the function pointers are non-NULL); the value returned by
  `get_physical_sw_timer_counter()` is the explicit argument `now` of each
  operation, and calls to `set_physical_timer(n)` are recorded as `Event.arm n`
  in the returned event trace.  Callback invocations become `Event.call`.
* Loops over the chain take a fuel argument; exhausting it is the fault
  `Fault.fuelOut`, so `∀ fuel, result = .error .fuelOut` expresses genuine
  non-termination of a source loop.
-/

namespace SwTimer

/-- Modulus of `uint32_t` arithmetic. -/
def U32MOD : Nat := 4294967296

/-- Truncation to `uint32_t`. -/
def u32 (n : Nat) : Nat := n % U32MOD

/-- Wrapping `uint32_t` addition. -/
def add32 (a b : Nat) : Nat := (a + b) % U32MOD

/-- Wrapping `uint32_t` subtraction. -/
def sub32 (a b : Nat) : Nat := (a + (U32MOD - b % U32MOD)) % U32MOD

/-- One `sw_timer_t` record (src/sw_timer.c lines 9-31).  `callback` is an
opaque identity (`none` models a NULL function pointer), `next`/`prev` are
arena indices (`none` models a NULL pointer). -/
structure TimerRecord where
  time : Nat
  period : Nat
  mode : Nat
  callback : Option Nat
  arg : Nat
  next : Option Nat
  prev : Option Nat
deriving Repr, DecidableEq

/-- The all-zero record an arena slot holds before `sw_timer_create`. -/
def TimerRecord.init : TimerRecord :=
  { time := 0
    period := 0
    mode := 0
    callback := none
    arg := 0
    next := none
    prev := none }

/-- The registry `PRIVATE_MEMBERS` (src/sw_timer.c lines 37-45): chain head,
and whether the two adapter function pointers are registered (non-NULL). -/
structure Registry where
  head : Option Nat
  timers : Nat → TimerRecord
  armSet : Bool
  cntSet : Bool

/-- Store a record into an arena slot. -/
def setTimer (s : Registry) (i : Nat) (r : TimerRecord) : Registry :=
  { s with timers := fun j => if j = i then r else s.timers j }

/-- Faults: C undefined behaviour (NULL data dereference, NULL function-pointer
call, `assert(0)`) or fuel exhaustion of a modelled loop. -/
inductive Fault where
  | nullDeref
  | nullCall
  | assertFail
  | fuelOut
deriving Repr, DecidableEq

/-- The status enum `sw_timer_status_t` (src/sw_timer.h lines 72-77). -/
inductive sw_timer_status where
  | OK
  | ERROR_PHYSICAL_TIMER_CALLBACKS_NOT_REGISTERED
  | ERROR_TIMER_NOT_EXIST
deriving Repr, DecidableEq

/-- Observable hardware interactions: `arm n` is a call
`set_physical_timer(n)`, `call c a` is a callback invocation. -/
inductive Event where
  | arm : Nat → Event
  | call : Nat → Nat → Event
deriving Repr, DecidableEq

/-- Result type of the status-returning control operations. -/
abbrev OpResult := Except Fault (sw_timer_status × Registry × List Event)

/-- Chain walk of the rebase loop in `sw_timer_update_relative_time`
(src/sw_timer.c lines 284-288): subtract `shift` from every record reachable
through `next`. -/
def rebasePass (shift : Nat) : Option Nat → Registry → Nat → Except Fault Registry
  | none, s, _ => .ok s
  | some _, _, 0 => .error .fuelOut
  | some i, s, fuel + 1 =>
    let r := s.timers i
    rebasePass shift r.next (setTimer s i { r with time := sub32 r.time shift }) fuel

/-- Translation of `sw_timer_update_relative_time` (src/sw_timer.c lines
277-292).  The C trigger is `((timer->time + delta) && 0x80000000) != 0`: a
logical AND, so the condition holds exactly when both operands are nonzero,
that is when the `uint32_t` sum `timer->time + delta` is nonzero.  The rebase
body dereferences `this->head` and calls the counter adapter. -/
def sw_timer_update_relative_time (s : Registry) (i : Nat) (delta now fuel : Nat) :
    Except Fault Registry := do
  let s ←
    if add32 (s.timers i).time delta ≠ 0 ∧ (0x80000000 : Nat) ≠ 0 then
      match s.head with
      | none => .error Fault.nullDeref
      | some h =>
        if s.cntSet then
          rebasePass (sub32 (s.timers h).time now) s.head s fuel
        else .error Fault.nullCall
    else .ok s
  let r := s.timers i
  .ok (setTimer s i { r with time := add32 r.time delta })

/-- Translation of `sw_timer_insert` (src/sw_timer.c lines 294-316): scan from
`cur`; insert `nw` before the first node with a strictly greater time (the
insertion writes `timer->prev->next`, a NULL dereference when `timer->prev`
is NULL); append at the last node otherwise; do nothing when `cur` is NULL. -/
def sw_timer_insert : Registry → Option Nat → Nat → Nat → Except Fault Registry
  | s, none, _, _ => .ok s
  | _, some _, _, 0 => .error .fuelOut
  | s, some t, nw, fuel + 1 =>
    let tr := s.timers t
    let nr := s.timers nw
    if nr.time < tr.time then
      match tr.prev with
      | none => .error Fault.nullDeref
      | some p =>
        let s := setTimer s nw { nr with next := some t, prev := some p }
        let s := setTimer s p { s.timers p with next := some nw }
        let s := setTimer s t { s.timers t with prev := some nw }
        .ok s
    else if tr.next = none then
      let s := setTimer s t { tr with next := some nw }
      let s := setTimer s nw { s.timers nw with next := none, prev := some t }
      .ok s
    else
      sw_timer_insert s tr.next nw fuel

/-- Translation of `sw_timer_create` (src/sw_timer.c lines 76-98): initialize
the caller-supplied slot `i` in the stopped state and hand back its handle
(the returned handle is `some i`; the registry itself only gains the record). -/
def sw_timer_create (s : Registry) (i : Nat) (period mode : Nat)
    (cb : Option Nat) (arg : Nat) : Registry :=
  setTimer s i
    { time := 0
      period := u32 period
      mode := u32 mode
      callback := cb
      arg := arg
      next := none
      prev := none }

/-- Translation of `sw_timer_register_physical_sw_timer_callbacks`
(src/sw_timer.c lines 68-74). -/
def sw_timer_register_physical_sw_timer_callbacks
    (s : Registry) (armSet cntSet : Bool) : Registry :=
  { s with armSet := armSet, cntSet := cntSet }

/-- Translation of `sw_timer_start` (src/sw_timer.c lines 134-178).  Note the
source order in the empty-chain branch: `head` and `head->time` are assigned
before the adapter NULL check, and in the non-empty branch the ordered insert
is started from `head->next`. -/
def sw_timer_start (s : Registry) (h? : Option Nat) (now fuel : Nat) : OpResult :=
  match h? with
  | none => .ok (.ERROR_TIMER_NOT_EXIST, s, [])
  | some t =>
    match s.head with
    | none =>
      let s := { s with head := some t }
      let s := setTimer s t { s.timers t with time := (s.timers t).period }
      if s.armSet then .ok (.OK, s, [Event.arm (s.timers t).period])
      else .ok (.ERROR_PHYSICAL_TIMER_CALLBACKS_NOT_REGISTERED, s, [])
    | some h =>
      if s.armSet ∧ s.cntSet then do
        let delta := add32 (sub32 (s.timers h).time now) (s.timers t).period
        let s ← sw_timer_update_relative_time s t delta now fuel
        if (s.timers t).time < (s.timers h).time then
          let ev := Event.arm (sub32 (s.timers t).time (sub32 (s.timers h).time now))
          let s := setTimer s t { s.timers t with next := some h }
          let s := setTimer s h { s.timers h with prev := some t }
          let s := { s with head := some t }
          .ok (.OK, s, [ev])
        else do
          let s ← sw_timer_insert s (s.timers h).next t fuel
          .ok (.OK, s, [])
      else .ok (.ERROR_PHYSICAL_TIMER_CALLBACKS_NOT_REGISTERED, s, [])

/-- Translation of `sw_timer_stop` (src/sw_timer.c lines 180-224).  The
head-with-successor branch calls both adapters without a NULL check; the
non-head branch writes `timer->prev->next`, a NULL dereference when the
record's `prev` is NULL. -/
def sw_timer_stop (s : Registry) (h? : Option Nat) (now : Nat) : OpResult :=
  match h? with
  | none => .ok (.ERROR_TIMER_NOT_EXIST, s, [])
  | some t =>
    match s.head with
    | none => .ok (.OK, s, [])
    | some h =>
      if h = t then
        match (s.timers h).next with
        | some n =>
          if s.armSet ∧ s.cntSet then
            let ev := Event.arm (sub32 (s.timers n).time (sub32 (s.timers h).time now))
            let s := { s with head := some n }
            let s := setTimer s n { s.timers n with prev := none }
            let s := setTimer s t { s.timers t with time := 0, next := none }
            .ok (.OK, s, [ev])
          else .error Fault.nullCall
        | none =>
          let s := setTimer s h { s.timers h with time := 0 }
          let s := { s with head := none }
          if s.armSet then .ok (.OK, s, [Event.arm 0]) else .error Fault.nullCall
      else
        let s := setTimer s t { s.timers t with time := 0 }
        match (s.timers t).next with
        | some nx =>
          match (s.timers t).prev with
          | none => .error Fault.nullDeref
          | some p =>
            let s := setTimer s nx { s.timers nx with prev := some p }
            let s := setTimer s p { s.timers p with next := some nx }
            let s := setTimer s t { s.timers t with prev := none, next := none }
            .ok (.OK, s, [])
        | none =>
          match (s.timers t).prev with
          | none => .error Fault.nullDeref
          | some p =>
            let s := setTimer s p { s.timers p with next := none }
            let s := setTimer s t { s.timers t with prev := none }
            .ok (.OK, s, [])

/-- Translation of `sw_timer_update` (src/sw_timer.c lines 100-132): NULL
handle reports `TimerNotExist`; a stopped timer (`time == 0`) has its
parameters replaced in place; a pending timer is stopped, re-parameterized and
restarted (the inner status codes are discarded, the function returns OK). -/
def sw_timer_update (s : Registry) (h? : Option Nat) (period mode : Nat)
    (cb : Option Nat) (arg : Nat) (now fuel : Nat) : OpResult :=
  match h? with
  | none => .ok (.ERROR_TIMER_NOT_EXIST, s, [])
  | some t =>
    if (s.timers t).time = 0 then
      let s := setTimer s t
        { s.timers t with
          period := u32 period
          mode := u32 mode
          callback := cb
          arg := arg }
      .ok (.OK, s, [])
    else do
      let (_, s, e1) ← sw_timer_stop s (some t) now
      let s := setTimer s t
        { s.timers t with
          period := u32 period
          mode := u32 mode
          callback := cb
          arg := arg }
      let (_, s, e2) ← sw_timer_start s (some t) now fuel
      .ok (.OK, s, e1 ++ e2)

/-- One iteration plus continuation of the `while` loop in
`sw_timer_interrupt_handler` (src/sw_timer.c lines 230-274); `time` is the
deadline captured at entry. -/
def handlerLoop : Nat → Nat → Registry → Nat → Except Fault (Registry × List Event)
  | 0, _, _, _ => .error .fuelOut
  | fuel + 1, time, s, now =>
    match s.head with
    | none => .ok (s, [])
    | some h =>
      if (s.timers h).time ≠ time then .ok (s, [])
      else do
        let cb := (s.timers h).callback
        let a := (s.timers h).arg
        let s ←
          if (s.timers h).mode = 0 then
            let s := setTimer s h { s.timers h with time := 0 }
            match (s.timers h).next with
            | some n =>
              let s := setTimer s h { s.timers h with next := none }
              let s := { s with head := some n }
              pure (setTimer s n { s.timers n with prev := none })
            | none => pure { s with head := none }
          else if (s.timers h).mode = 1 then do
            let s ← sw_timer_update_relative_time s h (s.timers h).period now fuel
            match (s.timers h).next with
            | some n =>
              if (s.timers h).time > (s.timers n).time then
                let s := { s with head := some n }
                match (s.timers n).prev with
                | none => .error Fault.nullDeref
                | some pr => do
                  let s ← sw_timer_insert s (some n) pr fuel
                  pure (setTimer s n { s.timers n with prev := none })
              else pure s
            | none => pure s
          else .error Fault.assertFail
        let (s, evs) ←
          match s.head with
          | some h2 =>
            if (s.timers h2).time ≠ time then
              if s.armSet then pure (s, [Event.arm (sub32 (s.timers h2).time time)])
              else .error Fault.nullCall
            else pure (s, ([] : List Event))
          | none =>
            if s.armSet then pure (s, [Event.arm 0]) else .error Fault.nullCall
        let evs := evs ++ (match cb with | some c => [Event.call c a] | none => [])
        let (s, evs2) ← handlerLoop fuel time s now
        .ok (s, evs ++ evs2)

/-- Translation of `sw_timer_interrupt_handler` (src/sw_timer.c lines
226-275).  The first statement reads `this->head->time` with no NULL check,
so an empty chain is an immediate NULL dereference. -/
def sw_timer_interrupt_handler (s : Registry) (now fuel : Nat) :
    Except Fault (Registry × List Event) :=
  match s.head with
  | none => .error Fault.nullDeref
  | some h => handlerLoop fuel ((s.timers h).time) s now

/-- Arena indices of the pending chain, walking `next` from `cur`. -/
def chainIds (s : Registry) : Nat → Option Nat → List Nat
  | 0, _ => []
  | _, none => []
  | fuel + 1, some i => i :: chainIds s fuel (s.timers i).next

/-- Relative times along the pending chain, from the registry head. -/
def chainTimes (s : Registry) (fuel : Nat) : List Nat :=
  (chainIds s fuel s.head).map (fun i => (s.timers i).time)

/-- Boolean test that a list of times is non-decreasing. -/
def nonDecreasing : List Nat → Bool
  | [] => true
  | [_] => true
  | a :: b :: rest => decide (a ≤ b) && nonDecreasing (b :: rest)

/-- Status component of an operation result, when it did not fault. -/
def opStatus (r : OpResult) : Option sw_timer_status :=
  r.toOption.map (fun x => x.1)

/-- Registry component of an operation result, when it did not fault. -/
def opRegistry (r : OpResult) : Option Registry :=
  r.toOption.map (fun x => x.2.1)

/-- Hardware/callback event trace of an operation result, when it did not
fault. -/
def opEvents (r : OpResult) : Option (List Event) :=
  r.toOption.map (fun x => x.2.2)

/-- Composition the specification defines pending-timer Update to be: Stop,
then field replacement, then Start (spec section 4.3).  This definition
follows the words of the spec and is compared with `sw_timer_update` in the
refinement claim C8. -/
def updateSpec (s : Registry) (t : Nat) (period mode : Nat) (cb : Option Nat)
    (arg : Nat) (now fuel : Nat) : Except Fault (Registry × List Event) := do
  let (_, s, e1) ← sw_timer_stop s (some t) now
  let s := setTimer s t
    { s.timers t with
      period := u32 period
      mode := u32 mode
      callback := cb
      arg := arg }
  let (_, s, e2) ← sw_timer_start s (some t) now fuel
  .ok (s, e1 ++ e2)

/-- Empty registry with both adapter operations registered. -/
def emptyReg : Registry :=
  { head := none, timers := fun _ => TimerRecord.init, armSet := true, cntSet := true }

/-- Failing input for C1: one pending timer in slot 0 (time 30), a stopped
timer with period 50 in slot 1, both adapters registered. -/
def c1reg : Registry :=
  { head := some 0
  , timers := fun i =>
      if i = 0 then ⟨30, 30, 1, none, 0, none, none⟩
      else if i = 1 then ⟨0, 50, 1, none, 0, none, none⟩
      else TimerRecord.init
  , armSet := true, cntSet := true }

/-- Failing input for C2: pending chain slot 0 (time 10) -> slot 1 (time 20),
counter currently reading 4. -/
def c2reg : Registry :=
  { head := some 0
  , timers := fun i =>
      if i = 0 then ⟨10, 10, 1, none, 0, some 1, none⟩
      else if i = 1 then ⟨20, 20, 1, none, 0, none, some 0⟩
      else TimerRecord.init
  , armSet := true, cntSet := true }

/-- Failing input for C3: empty chain, neither adapter registered, a created
timer with period 100 in slot 0. -/
def c3reg : Registry :=
  { head := none
  , timers := fun i =>
      if i = 0 then ⟨0, 100, 0, none, 0, none, none⟩ else TimerRecord.init
  , armSet := false, cntSet := false }

/-- Failing input for C4: a sole pending repeating timer whose relative time
equals its period (the state a single repeating timer is in when its interrupt
arrives), counter reading 0. -/
def c4reg : Registry :=
  { head := some 0
  , timers := fun i =>
      if i = 0 then ⟨100, 100, 1, none, 0, none, none⟩ else TimerRecord.init
  , armSet := true, cntSet := true }

/-- Registry for the C6 scenario: repeating timer A (slot 0, period 50,
callback 10) and repeating timer B (slot 1, period 30, callback 11) created on
the empty registry. -/
def c6reg : Registry :=
  sw_timer_create (sw_timer_create emptyReg 0 50 1 (some 10) 0) 1 30 1 (some 11) 0

/-- Scenario 2, first phase: Start timer A (period 50) then timer B (period
30); at B's Start the counter still reads 50 (no ticks elapsed). -/
def c6run : Except Fault (Registry × List Event) := do
  let (_, s, e1) ← sw_timer_start c6reg (some 0) 0 100
  let (_, s, e2) ← sw_timer_start s (some 1) 50 100
  .ok (s, e1 ++ e2)

/-- Scenario 2, second phase: the interrupt at the 30-tick deadline (counter
reads 0). -/
def c6run2 : Except Fault (Registry × List Event) := do
  let (s, _) ← c6run
  sw_timer_interrupt_handler s 0 100

/-- Timers for the C5 trace: repeating 50 and 30, single-shot 2147483647 and
100, created on the empty registry. -/
def c5reg : Registry :=
  sw_timer_create (sw_timer_create (sw_timer_create (sw_timer_create emptyReg
    0 50 1 none 0) 1 30 1 none 0) 2 2147483647 0 none 0) 3 100 0 none 0

/-- C5 trace: Start 0 (period 50), Start 1 (period 30, counter 50), interrupt
at the 30 deadline (counter 0), Start 2 (period 2147483647, counter 10),
Start 3 (period 100, counter 3000000000).  Every counter reading is at most
the value the hardware was last armed with. -/
def c5run : Except Fault Registry := do
  let (_, s, _) ← sw_timer_start c5reg (some 0) 0 100
  let (_, s, _) ← sw_timer_start s (some 1) 50 100
  let (s, _) ← sw_timer_interrupt_handler s 0 100
  let (_, s, _) ← sw_timer_start s (some 2) 10 100
  let (_, s, _) ← sw_timer_start s (some 3) 3000000000 100
  .ok s

/-- Counterexample input for C7: pending chain holds only slot 0 (time 30);
slot 1 is a created, never-started record (time 0, links cleared). -/
def c7reg : Registry :=
  { head := some 0
  , timers := fun i =>
      if i = 0 then ⟨30, 30, 0, none, 0, none, none⟩
      else if i = 1 then ⟨0, 50, 0, none, 0, none, none⟩
      else TimerRecord.init
  , armSet := true, cntSet := true }

/-- Witness input for C8: slot 0 stopped (time 0), slot 1 the sole pending
timer (time 40), both adapters registered. -/
def c8reg : Registry :=
  { head := some 1
  , timers := fun i =>
      if i = 0 then ⟨0, 25, 0, none, 0, none, none⟩
      else if i = 1 then ⟨40, 40, 0, none, 0, none, none⟩
      else TimerRecord.init
  , armSet := true, cntSet := true }

/-- Witness input for C9: slot 0 is the sole pending timer (head, no
successor). -/
def c9reg : Registry :=
  { head := some 0
  , timers := fun i =>
      if i = 0 then ⟨30, 30, 0, none, 0, none, none⟩ else TimerRecord.init
  , armSet := true, cntSet := true }

/-- C1: the claim states that whenever `sw_timer_start` returns Ok the started
record is reachable from the registry head, in particular when the chain held
exactly one timer and the new record's computed time is at least the head's.
This theorem evaluates the code at exactly that failing input: Start returns
OK, yet the chain is still only `[0]`, the new record (slot 1, whose computed
relative time 50 is at least the head's 30) is left outside the chain with its
time already set, and no hardware call is made. -/
theorem c1_start_ok_but_record_dropped :
    opStatus (sw_timer_start c1reg (some 1) 30 100) = some sw_timer_status.OK
    ∧ (opRegistry (sw_timer_start c1reg (some 1) 30 100)).map
        (fun s => chainIds s 100 s.head) = some [0]
    ∧ (opRegistry (sw_timer_start c1reg (some 1) 30 100)).map
        (fun s => ((s.timers 1).time, (s.timers 1).next, (s.timers 1).prev))
        = some (50, none, none)
    ∧ opEvents (sw_timer_start c1reg (some 1) 30 100) = some [] :=
  ⟨rfl, rfl, rfl, rfl⟩

/-- C2: the claim states the whole-chain rebase happens exactly when the
`uint32` sum reaches `0x80000000`, and that below the threshold only the
target's time is incremented.  The code's trigger is a logical AND, so the
rebase fires for any nonzero sum: at chain `[10, 20]`, counter 4, adding delta
5 to the second timer (sum 25, far below the threshold) the code shifts every
record by the elapsed 6 ticks, producing times `(4, 19)` instead of the
claimed `(10, 25)`. -/
theorem c2_rebase_fires_below_threshold :
    add32 (c2reg.timers 1).time 5 < 0x80000000
    ∧ (sw_timer_update_relative_time c2reg 1 5 4 100).toOption.map
        (fun s => ((s.timers 0).time, (s.timers 1).time)) = some (4, 19) :=
  ⟨by decide, rfl⟩

/-- C3: the claim states any non-Ok `sw_timer_start` leaves the registry
untouched.  On an empty chain with the arm adapter unregistered the code first
installs the record as head and sets its time to its period, and only then
reports `AdapterNotRegistered`: the failed call mutates the registry. -/
theorem c3_failed_start_mutates_registry :
    c3reg.head = none ∧ (c3reg.timers 0).time = 0
    ∧ opStatus (sw_timer_start c3reg (some 0) 0 100)
        = some sw_timer_status.ERROR_PHYSICAL_TIMER_CALLBACKS_NOT_REGISTERED
    ∧ (opRegistry (sw_timer_start c3reg (some 0) 0 100)).map
        (fun s => (s.head, (s.timers 0).time)) = some (some 0, 100)
    ∧ opEvents (sw_timer_start c3reg (some 0) 0 100) = some [] :=
  ⟨rfl, rfl, rfl, rfl, rfl⟩

/-- C5: the claim states the chain is non-decreasing after any call sequence
from the empty registry.  The concrete sequence `c5run` (two Starts, one
interrupt, two more Starts, with counter readings never exceeding the last
armed value) drives the chain to `[1294967406, 3000000000, 3000000010,
852516351]`, which is not non-decreasing. -/
theorem c5_sorted_invariant_violated :
    c5run.toOption.map (fun s => chainTimes s 100)
      = some [1294967406, 3000000000, 3000000010, 852516351]
    ∧ c5run.toOption.map (fun s => nonDecreasing (chainTimes s 100)) = some false :=
  ⟨rfl, rfl⟩

/-- C6: Scenario 2.  The first phase matches the claim: after starting the
repeating timers with periods 50 and 30 the chain is `[30, 50]` and the
hardware was last armed for 30.  The second phase does not: the interrupt at
the 30 deadline rebases the whole chain (the logical-AND trigger fires on the
reload) and then arms `head.time - time`, so the chain becomes `[20, 30]` and
the hardware is armed for `(20 - 30) mod 2^32 = 4294967286`, not `[50, 60]`
and 20 as claimed. -/
theorem c6_scenario_two_repeating :
    c6run.toOption.map (fun x => chainTimes x.1 100) = some [30, 50]
    ∧ c6run.toOption.map (fun x => x.2) = some [Event.arm 50, Event.arm 30]
    ∧ c6run2.toOption.map (fun x => chainTimes x.1 100) = some [20, 30]
    ∧ c6run2.toOption.map (fun x => x.2)
        = some [Event.arm 4294967286, Event.call 11 0] :=
  ⟨rfl, rfl, rfl, rfl⟩

/-- C7 counterexample: at `c7reg` (chain `[0]`, slot 1 created but never
started: time 0, links cleared) the claim predicts `sw_timer_stop` on slot 1
is a well-defined no-op returning Ok; the code instead reaches
`timer->prev->next` with a NULL `prev`, a NULL dereference. -/
theorem c7_stop_detached_counterexample :
    sw_timer_stop c7reg (some 1) 0 = .error Fault.nullDeref := rfl

/-- C7 (amended): calling `sw_timer_stop` on a record that is not in the
pending chain (relative time 0, links cleared) while the chain is non-empty
and the record is not the head is not a well-defined no-op: the code takes the
non-head removal branch and dereferences the record's NULL `prev` pointer. -/
theorem c7_stop_detached_null_deref (s : Registry) (t h now : Nat)
    (hh : s.head = some h) (hne : h ≠ t)
    (htime : (s.timers t).time = 0)
    (hnx : (s.timers t).next = none) (hpv : (s.timers t).prev = none) :
    sw_timer_stop s (some t) now = .error Fault.nullDeref := by
  simp only [sw_timer_stop, hh, if_neg hne]
  simp [setTimer, hnx, hpv]

/-- Witness for C7: the amended theorem applied at the concrete input
`c7reg`, slot 1. -/
theorem c7_stop_detached_null_deref_witness :
    c7reg.head = some 0 ∧ (0 : Nat) ≠ 1 ∧ (c7reg.timers 1).time = 0
    ∧ (c7reg.timers 1).next = none ∧ (c7reg.timers 1).prev = none
    ∧ sw_timer_stop c7reg (some 1) 0 = .error Fault.nullDeref :=
  ⟨rfl, by decide, rfl, rfl, rfl,
    c7_stop_detached_null_deref c7reg 1 0 0 rfl (by decide) rfl rfl rfl⟩

/-- C9: stopping the sole pending timer (the head, with no successor, arm
adapter registered) empties the chain, resets the record's relative time to 0
and makes exactly one hardware call `arm(0)`. -/
theorem c9_stop_sole_pending (s : Registry) (t now : Nat)
    (hh : s.head = some t) (hn : (s.timers t).next = none)
    (ha : s.armSet = true) :
    ∃ s2, sw_timer_stop s (some t) now
        = .ok (sw_timer_status.OK, s2, [Event.arm 0])
      ∧ s2.head = none ∧ (s2.timers t).time = 0 := by
  have heq : sw_timer_stop s (some t) now =
      .ok (sw_timer_status.OK,
        { setTimer s t { s.timers t with time := 0 } with head := none },
        [Event.arm 0]) := by
    simp [sw_timer_stop, setTimer, hh, hn, ha]
  exact ⟨_, heq, rfl, by simp [setTimer]⟩

/-- Witness for C9: the theorem applied at the concrete registry `c9reg`
whose sole pending timer is slot 0. -/
theorem c9_stop_sole_pending_witness :
    c9reg.head = some 0 ∧ (c9reg.timers 0).next = none ∧ c9reg.armSet = true
    ∧ ∃ s2, sw_timer_stop c9reg (some 0) 7
          = .ok (sw_timer_status.OK, s2, [Event.arm 0])
        ∧ s2.head = none ∧ (s2.timers 0).time = 0 :=
  ⟨rfl, rfl, rfl, c9_stop_sole_pending c9reg 0 7 rfl rfl rfl⟩

/-- C10: `sw_timer_interrupt_handler` reads the head's relative time before
any NULL check, so on an empty chain (head is none) its very first access is a
NULL dereference; it is well-defined only when a timer is pending. -/
theorem c10_interrupt_empty_chain_null_deref (s : Registry) (now fuel : Nat)
    (hh : s.head = none) :
    sw_timer_interrupt_handler s now fuel = .error Fault.nullDeref := by
  simp [sw_timer_interrupt_handler, hh]

/-- Witness for C10: the theorem applied at the empty registry. -/
theorem c10_interrupt_empty_chain_null_deref_witness :
    emptyReg.head = none
    ∧ sw_timer_interrupt_handler emptyReg 3 100 = .error Fault.nullDeref :=
  ⟨rfl, c10_interrupt_empty_chain_null_deref emptyReg 3 100 rfl⟩

/-- C8: `sw_timer_update` with a NULL handle returns `TimerNotExist` and
changes nothing; with a stopped timer (relative time 0) it replaces period,
mode, callback and argument in the record in place (the chain head and every
other slot are untouched, no hardware call); with a pending timer it equals
the composition Stop, then field replacement, then Start (`updateSpec`),
re-statused to OK. -/
theorem c8_update_contract (s : Registry) (p m a now fuel : Nat)
    (cb : Option Nat) :
    sw_timer_update s none p m cb a now fuel
      = .ok (sw_timer_status.ERROR_TIMER_NOT_EXIST, s, [])
    ∧ (∀ t, (s.timers t).time = 0 →
        sw_timer_update s (some t) p m cb a now fuel
          = .ok (sw_timer_status.OK,
              setTimer s t
                { s.timers t with
                  period := u32 p
                  mode := u32 m
                  callback := cb
                  arg := a }, []))
    ∧ (∀ t, (s.timers t).time ≠ 0 →
        sw_timer_update s (some t) p m cb a now fuel
          = (updateSpec s t p m cb a now fuel).map
              (fun x => (sw_timer_status.OK, x.1, x.2))) := by
  refine ⟨rfl, ?_, ?_⟩
  · intro t ht
    simp [sw_timer_update, ht]
  · intro t ht
    simp only [sw_timer_update, updateSpec, if_neg ht]
    cases hstop : sw_timer_stop s (some t) now with
    | error e => simp [hstop, Except.map, bind, Except.bind]
    | ok v =>
      obtain ⟨st1, s1, e1⟩ := v
      simp only [hstop, Except.map, bind, Except.bind]
      cases hstart : sw_timer_start
          (setTimer s1 t
            { s1.timers t with
              period := u32 p
              mode := u32 m
              callback := cb
              arg := a }) (some t) now fuel with
      | error e => simp [hstart]
      | ok w =>
        obtain ⟨st2, s2, e2⟩ := w
        simp [hstart]

/-- Witness for C8: the contract applied at the concrete registry `c8reg`
(slot 0 stopped, slot 1 the sole pending timer). -/
theorem c8_update_contract_witness :
    (c8reg.timers 0).time = 0 ∧ (c8reg.timers 1).time ≠ 0
    ∧ sw_timer_update c8reg none 7 1 (some 5) 9 3 50
        = .ok (sw_timer_status.ERROR_TIMER_NOT_EXIST, c8reg, [])
    ∧ sw_timer_update c8reg (some 0) 7 1 (some 5) 9 3 50
        = .ok (sw_timer_status.OK,
            setTimer c8reg 0
              { c8reg.timers 0 with
                period := u32 7
                mode := u32 1
                callback := some 5
                arg := 9 }, [])
    ∧ sw_timer_update c8reg (some 1) 7 1 (some 5) 9 3 50
        = (updateSpec c8reg 1 7 1 (some 5) 9 3 50).map
            (fun x => (sw_timer_status.OK, x.1, x.2)) :=
  ⟨rfl, by decide,
    (c8_update_contract c8reg 7 1 9 3 50 (some 5)).1,
    (c8_update_contract c8reg 7 1 9 3 50 (some 5)).2.1 0 rfl,
    (c8_update_contract c8reg 7 1 9 3 50 (some 5)).2.2 1 (by decide)⟩

/-- Helper for C4: one rebase pass over a single-node chain. -/
theorem rebasePass_single (shift : Nat) (s : Registry) (i fuel : Nat)
    (hn : (s.timers i).next = none) :
    rebasePass shift (some i) s (fuel + 1)
      = .ok (setTimer s i { s.timers i with time := sub32 (s.timers i).time shift }) := by
  simp [rebasePass, hn]

/-- Helper for C4: on a registry whose head is the sole chain member, slot 0,
with time 100 and period 100 at counter 0, the relative-time update rebases
the chain by the full 100 elapsed ticks and then adds the period back, so the
record returns to exactly its previous value. -/
theorem urt_c4_step (s : Registry) (m : Nat)
    (hh : s.head = some 0)
    (ht : s.timers 0 = ⟨100, 100, 1, none, 0, none, none⟩)
    (hc : s.cntSet = true) :
    ∃ s2, sw_timer_update_relative_time s 0 100 0 (m + 1) = .ok s2
      ∧ s2.head = s.head ∧ s2.timers 0 = ⟨100, 100, 1, none, 0, none, none⟩
      ∧ s2.armSet = s.armSet ∧ s2.cntSet = s.cntSet := by
  refine ⟨setTimer (setTimer s 0 ⟨0, 100, 1, none, 0, none, none⟩) 0
    ⟨100, 100, 1, none, 0, none, none⟩, ?_, rfl, by simp [setTimer], rfl, rfl⟩
  simp [sw_timer_update_relative_time, hh, hc, ht, rebasePass, setTimer,
    add32, sub32, U32MOD, bind, Except.bind]

/-- Helper for C4: on any registry whose chain is the single repeating timer
in slot 0 with relative time 100 and period 100, at counter 0, the expiry loop
of the interrupt handler never terminates: after each iteration the head's
relative time has been rebased back to exactly the captured deadline 100, so
every fuel bound is exhausted. -/
theorem handlerLoop_c4 (fuel : Nat) : ∀ s : Registry,
    s.head = some 0 →
    s.timers 0 = ⟨100, 100, 1, none, 0, none, none⟩ →
    s.armSet = true → s.cntSet = true →
    handlerLoop fuel 100 s 0 = .error Fault.fuelOut := by
  induction fuel with
  | zero => intro s _ _ _ _; rfl
  | succ n ih =>
    intro s hh ht ha hc
    cases n with
    | zero =>
      simp [handlerLoop, hh, ht, hc, sw_timer_update_relative_time, rebasePass,
        add32, sub32, U32MOD, bind, Except.bind]
    | succ m =>
      obtain ⟨s2, hupd, h2h, h2t, h2a, h2c⟩ := urt_c4_step s m hh ht hc
      rw [hh] at h2h
      rw [ha] at h2a
      rw [hc] at h2c
      have key := ih s2 h2h h2t h2a h2c
      conv_lhs => rw [handlerLoop]
      simp [hh, ht, hupd, h2h, h2t, key, bind, Except.bind, pure, Except.pure]

/-- C4: the claim states the interrupt handler terminates for every non-empty
registry, firing each deadline-sharing timer once.  At the failing input
`c4reg` (a single repeating timer with period 100 whose interrupt just fired,
counter 0) the loop never terminates: the logical-AND rebase trigger fires on
the period reload, subtracts the 100 elapsed ticks from the chain and adds the
period back, leaving the head's time equal to the captured deadline again, so
the handler exhausts every fuel bound. -/
theorem c4_interrupt_handler_diverges (fuel : Nat) :
    sw_timer_interrupt_handler c4reg 0 fuel = .error Fault.fuelOut :=
  handlerLoop_c4 fuel c4reg rfl rfl rfl rfl
